import Mathlib

/-!
Verification development for the flux gateway core: a shallow embedding of the
server package (dispatcher, serve engine, endpoint route table, backend-service
directory, dynamic filter loading) together with theorems settling the spec's
claims about it. Go maps are embedded as association lists, effects (metric
increments, transporter calls, pool operations, panic logging) as explicit
event traces, and Go's deferred calls are linearized by hand following the
language's LIFO rules.
-/

namespace Flux

/-- HTTP status OK of the flux root package (the package itself is not under the
sources; the spec's error taxonomy fixes OK = 200). -/
def StatusOK : Nat := 200

/-- HTTP status NotFound (404) of the flux root package. -/
def StatusNotFound : Nat := 404

/-- HTTP status ServerError (500) of the flux root package. -/
def StatusServerError : Nat := 500

/-- Error code flux.ErrorCodeRequestNotFound from the spec's error taxonomy. -/
def ErrorCodeRequestNotFound : String := "REQUEST_NOT_FOUND"

/-- ServeError: the uniform failure value (flux.ServeError). The Go error held
in CauseError is modelled by its message string. -/
structure ServeError where
  statusCode : Nat
  errorCode : String
  message : String := ""
  causeError : Option String := none
  deriving Repr, DecidableEq

/-- Per-request routing context: the projections of flux.Context that
Dispatcher.Route reads — cancellation token state, the cancellation cause, and
the endpoint service coordinates used for metric labels and transporter
lookup. -/
structure Ctx where
  ctxDone : Bool
  cancelCause : String
  rpcProto : String
  serviceInterface : String
  serviceMethod : String
  deriving Repr, DecidableEq

/-- Observable effects of one Dispatcher.Route call: a filter body running, the
transporter being invoked, the RouteDuration histogram observation, and the
endpoint access / error counter increments. -/
inductive RouteEv where
  | filterRun (id : String)
  | transporterCalled (proto : String)
  | histogramObserved (proto : String)
  | accessInc (proto uri method : String)
  | errorInc (proto uri method code : String)
  deriving Repr, DecidableEq

/-- flux.FilterInvoker: consumes a context and yields the ServeError result
paired with the trace of effects it produced. -/
abbrev Invoker := Ctx → Option ServeError × List RouteEv

/-- flux.Filter. DoFilter wraps a next invoker; per the filter contract a filter
either short-circuits with a ServeError without calling next (intercept returns
some error) or calls next exactly once and passes its result through (intercept
returns none). -/
structure Filter where
  filterId : String
  intercept : Ctx → Option ServeError

/-- Filter.DoFilter: the invoker produced by wrapping next with this filter. -/
def Filter.DoFilter (f : Filter) (next : Invoker) : Invoker :=
  fun ctx =>
    match f.intercept ctx with
    | some err => (some err, [RouteEv.filterRun f.filterId])
    | none =>
      let r := next ctx
      (r.1, RouteEv.filterRun f.filterId :: r.2)

/-- Dispatcher.walk (dispatcher.go 158-163): iterate the filters from the last
index down to 0, wrapping next at each step, so filters[0] ends up outermost.
The Go loop is exactly a right fold. -/
def Dispatcher.walk (next : Invoker) (filters : List Filter) : Invoker :=
  filters.foldr (fun f acc => f.DoFilter acc) next

/-- flux.FilterSelector: Activate decides whether the selector applies to this
request, DoSelect returns the filters it contributes. -/
structure FilterSelector where
  activate : Ctx → Bool
  doSelect : Ctx → List Filter

/-- Selective-filter collection loop of Dispatcher.Route (dispatcher.go
115-120): append each activated selector's selection in order. -/
def selectFilters (selectors : List FilterSelector) (ctx : Ctx) : List Filter :=
  selectors.foldl (fun acc sel => if sel.activate ctx then acc ++ sel.doSelect ctx else acc) []

/-- Terminal transport closure of Dispatcher.Route (dispatcher.go 122-152): if
the request's cancellation token is already done, return the CANCELED error
carrying the cancellation cause, without touching the transporter or the
histogram; otherwise resolve the transporter by protocol (unknown protocol
gives NotFound / REQUEST_NOT_FOUND); otherwise invoke it under the
RouteDuration timer. -/
def transportStep (transporters : List String) : Invoker :=
  fun ctx =>
    if ctx.ctxDone then
      (some { statusCode := StatusOK, errorCode := "ROUTE:TRANSPORT/B:CANCELED",
              causeError := some ctx.cancelCause }, [])
    else if transporters.contains ctx.rpcProto then
      (none, [RouteEv.transporterCalled ctx.rpcProto, RouteEv.histogramObserved ctx.rpcProto])
    else
      (some { statusCode := StatusNotFound, errorCode := ErrorCodeRequestNotFound,
              message := "ROUTE:UNKNOWN_PROTOCOL:" ++ ctx.rpcProto }, [])

/-- doMetricEndpointFunc (dispatcher.go 99-109): increment the endpoint access
counter, and additionally the endpoint error counter (labelled with the error
code) when the chain returned an error; the error value passes through. -/
def doMetricEndpointFunc (ctx : Ctx) (r : Option ServeError × List RouteEv) :
    Option ServeError × List RouteEv :=
  let access := RouteEv.accessInc ctx.rpcProto ctx.serviceInterface ctx.serviceMethod
  match r.1 with
  | some err =>
    (some err, r.2 ++ [access,
      RouteEv.errorInc ctx.rpcProto ctx.serviceInterface ctx.serviceMethod err.errorCode])
  | none => (none, r.2 ++ [access])

/-- Dispatcher.Route (dispatcher.go 97-156): collect the selective filters,
walk the chain globalFilters ++ selective around the terminal transport step,
then apply the endpoint metric wrapper to the outcome. -/
def Dispatcher.Route (globalFilters : List Filter) (selectors : List FilterSelector)
    (transporters : List String) (ctx : Ctx) : Option ServeError × List RouteEv :=
  let selective := selectFilters selectors ctx
  let filters := globalFilters ++ selective
  doMetricEndpointFunc ctx (Dispatcher.walk (transportStep transporters) filters ctx)

theorem walk_cons (next : Invoker) (f : Filter) (rest : List Filter) :
    Dispatcher.walk next (f :: rest) = f.DoFilter (Dispatcher.walk next rest) := rfl

/-- Helper: when every filter in the list passes the request through, the walk
runs each filter in list order and finishes with the terminal invoker. -/
theorem walk_all_pass (next : Invoker) (ctx : Ctx) (filters : List Filter)
    (h : ∀ f ∈ filters, f.intercept ctx = none) :
    Dispatcher.walk next filters ctx
      = ((next ctx).1, filters.map (fun f => RouteEv.filterRun f.filterId) ++ (next ctx).2) := by
  induction filters with
  | nil => simp [Dispatcher.walk]
  | cons f rest ih =>
    have hf : f.intercept ctx = none := h f (by simp)
    have hrest : ∀ g ∈ rest, g.intercept ctx = none := fun g hg => h g (by simp [hg])
    rw [walk_cons]
    simp [Filter.DoFilter, hf, ih hrest]

/-- Helper: a short-circuiting filter stops the walk, with only the earlier
pass-through filters and itself having run. -/
theorem walk_short_circuit (next : Invoker) (ctx : Ctx) (pre post : List Filter)
    (f : Filter) (e : ServeError)
    (hpre : ∀ p ∈ pre, p.intercept ctx = none) (hf : f.intercept ctx = some e) :
    Dispatcher.walk next (pre ++ f :: post) ctx
      = (some e, pre.map (fun p => RouteEv.filterRun p.filterId) ++ [RouteEv.filterRun f.filterId]) := by
  induction pre with
  | nil =>
    rw [List.nil_append, walk_cons]
    simp [Filter.DoFilter, hf]
  | cons p rest ih =>
    have hp : p.intercept ctx = none := hpre p (by simp)
    have hrest : ∀ q ∈ rest, q.intercept ctx = none := fun q hq => hpre q (by simp [hq])
    rw [List.cons_append, walk_cons]
    simp [Filter.DoFilter, hp, ih hrest]

/-- C1: Dispatcher.Route composes and executes the filter chain as A(B(C(T))):
the chain is globalFilters followed by the per-request selective filters,
filter[0] is outermost and runs first, every filter wraps the remainder and
invokes its next zero or one times, and a filter that returns a non-nil
ServeError without calling next prevents every later filter and the transport
from running. Stated as (i) the walk over [A, B, C] is literally the nesting
A(B(C(next))); (ii) when every filter passes and a transporter exists, Route
executes exactly the filters globalFilters ++ selective in list order followed
by the transporter; (iii) if the filters before f pass and f short-circuits
with e, the walk returns e having run only those filters and f — in particular
the transporter is never called. -/
theorem dispatcher_filter_chain_composition :
    (∀ (A B C : Filter) (next : Invoker),
      Dispatcher.walk next [A, B, C] = A.DoFilter (B.DoFilter (C.DoFilter next)))
  ∧ (∀ (g : List Filter) (selectors : List FilterSelector) (ts : List String) (ctx : Ctx),
      (∀ f ∈ g ++ selectFilters selectors ctx, f.intercept ctx = none) →
      ctx.ctxDone = false → ts.contains ctx.rpcProto = true →
      Dispatcher.Route g selectors ts ctx
        = (none, (g ++ selectFilters selectors ctx).map (fun f => RouteEv.filterRun f.filterId)
            ++ [RouteEv.transporterCalled ctx.rpcProto, RouteEv.histogramObserved ctx.rpcProto,
                RouteEv.accessInc ctx.rpcProto ctx.serviceInterface ctx.serviceMethod]))
  ∧ (∀ (pre post : List Filter) (f : Filter) (ts : List String) (ctx : Ctx) (e : ServeError),
      (∀ p ∈ pre, p.intercept ctx = none) → f.intercept ctx = some e →
      (Dispatcher.walk (transportStep ts) (pre ++ f :: post) ctx).1 = some e
      ∧ (Dispatcher.walk (transportStep ts) (pre ++ f :: post) ctx).2
          = pre.map (fun p => RouteEv.filterRun p.filterId) ++ [RouteEv.filterRun f.filterId]
      ∧ ∀ proto, RouteEv.transporterCalled proto
          ∉ (Dispatcher.walk (transportStep ts) (pre ++ f :: post) ctx).2) := by
  refine ⟨fun A B C next => rfl, ?_, ?_⟩
  · intro g selectors ts ctx hpass hdone hproto
    have hw := walk_all_pass (transportStep ts) ctx (g ++ selectFilters selectors ctx) hpass
    have hproto' : ctx.rpcProto ∈ ts := by simpa using hproto
    have ht : transportStep ts ctx
        = (none, [RouteEv.transporterCalled ctx.rpcProto, RouteEv.histogramObserved ctx.rpcProto]) := by
      simp [transportStep, hdone, hproto']
    simp [Dispatcher.Route, hw, ht, doMetricEndpointFunc]
  · intro pre post f ts ctx e hpre hf
    have hw := walk_short_circuit (transportStep ts) ctx pre post f e hpre hf
    refine ⟨by simp [hw], by simp [hw], ?_⟩
    intro proto
    simp only [hw]
    intro hmem
    rcases List.mem_append.mp hmem with h | h
    · rcases List.mem_map.mp h with ⟨p, _, hp⟩
      exact RouteEv.noConfusion hp
    · simp at h

/-- Witness for C1: a concrete chain [passFilter, denyFilter, unreachedFilter]
around the transport step short-circuits at denyFilter. -/
theorem dispatcher_filter_chain_composition_witness :
    (Dispatcher.walk (transportStep ["dubbo"])
        ([⟨"pass", fun _ => none⟩] ++ ⟨"deny", fun _ => some ⟨403, "PERMISSION_DENIED", "", none⟩⟩
          :: [⟨"late", fun _ => none⟩]) ⟨false, "", "dubbo", "i", "m"⟩).1
      = some ⟨403, "PERMISSION_DENIED", "", none⟩ := by
  exact (dispatcher_filter_chain_composition.2.2 [⟨"pass", fun _ => none⟩] [⟨"late", fun _ => none⟩]
    ⟨"deny", fun _ => some ⟨403, "PERMISSION_DENIED", "", none⟩⟩ ["dubbo"]
    ⟨false, "", "dubbo", "i", "m"⟩ ⟨403, "PERMISSION_DENIED", "", none⟩
    (by intro p hp; simp at hp; subst hp; rfl) rfl).1

/-- C2: when the cancellation token is already cancelled at the terminal
transport step (all filters pass the request through so the terminal step is
reached), Dispatcher.Route never invokes the transporter, records no
transporter histogram observation, and returns the ServeError with StatusCode
200 (OK), ErrorCode ROUTE:TRANSPORT/B:CANCELED and the cancellation cause as
its underlying error. -/
theorem route_cancelled_before_transport (g : List Filter) (selectors : List FilterSelector)
    (ts : List String) (ctx : Ctx)
    (hdone : ctx.ctxDone = true)
    (hpass : ∀ f ∈ g ++ selectFilters selectors ctx, f.intercept ctx = none) :
    (Dispatcher.Route g selectors ts ctx).1
      = some { statusCode := 200, errorCode := "ROUTE:TRANSPORT/B:CANCELED",
               message := "", causeError := some ctx.cancelCause }
    ∧ (∀ proto, RouteEv.transporterCalled proto ∉ (Dispatcher.Route g selectors ts ctx).2)
    ∧ (∀ proto, RouteEv.histogramObserved proto ∉ (Dispatcher.Route g selectors ts ctx).2) := by
  have hw := walk_all_pass (transportStep ts) ctx (g ++ selectFilters selectors ctx) hpass
  have ht : transportStep ts ctx
      = (some { statusCode := StatusOK, errorCode := "ROUTE:TRANSPORT/B:CANCELED",
                message := "", causeError := some ctx.cancelCause }, []) := by
    simp [transportStep, hdone]
  have hr : Dispatcher.Route g selectors ts ctx
      = (some { statusCode := StatusOK, errorCode := "ROUTE:TRANSPORT/B:CANCELED",
                message := "", causeError := some ctx.cancelCause },
         (g ++ selectFilters selectors ctx).map (fun f => RouteEv.filterRun f.filterId)
           ++ [RouteEv.accessInc ctx.rpcProto ctx.serviceInterface ctx.serviceMethod,
               RouteEv.errorInc ctx.rpcProto ctx.serviceInterface ctx.serviceMethod
                 "ROUTE:TRANSPORT/B:CANCELED"]) := by
    simp [Dispatcher.Route, hw, ht, doMetricEndpointFunc]
  refine ⟨by simp [hr, StatusOK], ?_, ?_⟩
  · intro proto
    simp only [hr]
    intro hmem
    rcases List.mem_append.mp hmem with h | h
    · rcases List.mem_map.mp h with ⟨p, _, hp⟩
      exact RouteEv.noConfusion hp
    · simp at h
  · intro proto
    simp only [hr]
    intro hmem
    rcases List.mem_append.mp hmem with h | h
    · rcases List.mem_map.mp h with ⟨p, _, hp⟩
      exact RouteEv.noConfusion hp
    · simp at h

/-- Witness for C2: a cancelled request with one pass-through global filter and
a registered dubbo transporter yields the CANCELED error. -/
theorem route_cancelled_before_transport_witness :
    (Dispatcher.Route [⟨"pass", fun _ => none⟩] [] ["dubbo"] ⟨true, "context canceled", "dubbo", "i", "m"⟩).1
      = some { statusCode := 200, errorCode := "ROUTE:TRANSPORT/B:CANCELED",
               message := "", causeError := some "context canceled" } := by
  exact (route_cancelled_before_transport [⟨"pass", fun _ => none⟩] [] ["dubbo"]
    ⟨true, "context canceled", "dubbo", "i", "m"⟩ rfl
    (by intro f hf; simp [selectFilters] at hf; subst hf; rfl)).1

/-- Association-list lookup, embedding a Go map read. -/
def lookupKey {α : Type} : List (String × α) → String → Option α
  | [], _ => none
  | p :: rest, k => if p.1 = k then some p.2 else lookupKey rest k

/-- Association-list removal, embedding a Go map delete. -/
def removeKey {α : Type} : List (String × α) → String → List (String × α)
  | [], _ => []
  | p :: rest, k => if p.1 = k then removeKey rest k else p :: removeKey rest k

/-- Association-list insert-or-replace, embedding a Go map store. -/
def storeKey {α : Type} (l : List (String × α)) (k : String) (v : α) : List (String × α) :=
  (k, v) :: removeKey l k

theorem lookupKey_removeKey_self {α : Type} (l : List (String × α)) (k : String) :
    lookupKey (removeKey l k) k = none := by
  induction l with
  | nil => rfl
  | cons p rest ih =>
    by_cases h : p.1 = k
    · simp [removeKey, h, ih]
    · simp [removeKey, lookupKey, h, ih]

theorem lookupKey_removeKey_of_none {α : Type} (l : List (String × α)) (k k2 : String)
    (h : lookupKey l k = none) : lookupKey (removeKey l k2) k = none := by
  induction l with
  | nil => rfl
  | cons p rest ih =>
    by_cases hp : p.1 = k
    · simp [lookupKey, hp] at h
    · simp [lookupKey, hp] at h
      by_cases hq : p.1 = k2
      · simp [removeKey, hq, ih h]
      · simp [removeKey, lookupKey, hq, hp, ih h]

/-- flux.Service: a backend target (the fields the server package reads). -/
structure Service where
  serviceId : String
  aliasId : String
  rpcProto : String
  serviceInterface : String
  serviceMethod : String
  deriving Repr, DecidableEq

/-- flux.Endpoint: one routable versioned action (the fields the server package
reads; Managed stands for the EndpointAttrTagManaged attribute being valid). -/
structure Endpoint where
  version : String
  httpMethod : String
  httpPattern : String
  managed : Bool
  service : Service
  deriving Repr, DecidableEq

/-- MultiEndpoint: the Version → Endpoint table of one route key.
Modelled from the spec: the MultiEndpoint implementation is not under the
sources (only its callers in server.go are); the spec describes it as a
mutable mapping from version to endpoint with at most one endpoint per
version. -/
structure MultiEndpoint where
  versions : List (String × Endpoint)
  deriving Repr, DecidableEq

/-- MultiEndpoint.Update — insert or replace one version.
Modelled from the spec: "mve.Update(version, endpoint) — insert or replace." -/
def MultiEndpoint.Update (m : MultiEndpoint) (v : String) (ep : Endpoint) : MultiEndpoint :=
  ⟨storeKey m.versions v ep⟩

/-- MultiEndpoint.Delete — remove one version, the MVE itself remains.
Modelled from the spec: "mve.Delete(version) — remove one version." -/
def MultiEndpoint.Delete (m : MultiEndpoint) (v : String) : MultiEndpoint :=
  ⟨removeKey m.versions v⟩

/-- Lexicographically smallest version entry, the spec's default tie-break. -/
def lexSmallest : List (String × Endpoint) → Option Endpoint
  | [] => none
  | p :: rest => some (rest.foldl (fun acc q => if q.1 < acc.1 then q else acc) p).2

/-- MultiEndpoint.FindByVersion.
Modelled from the spec: "if requested is non-empty and matches a stored version
exactly, return it; otherwise, if a version tagged as the default exists,
return it; otherwise fail", with the default being the empty-string version if
present, else the lexicographically smallest version. -/
def MultiEndpoint.FindByVersion (m : MultiEndpoint) (requested : String) : Option Endpoint :=
  let deflt :=
    match lookupKey m.versions "" with
    | some ep => some ep
    | none => lexSmallest m.versions
  if requested = "" then deflt
  else
    match lookupKey m.versions requested with
    | some ep => some ep
    | none => deflt

/-- flux.ErrRouteNotFound.
Modelled from the spec: the flux root package is not under the sources; the
spec's error taxonomy gives REQUEST_NOT_FOUND with HTTP status 404 when no
version matches. -/
def ErrRouteNotFound : ServeError :=
  { statusCode := StatusNotFound, errorCode := ErrorCodeRequestNotFound,
    message := "SERVER:ROUTE:NOT_FOUND" }

/-- Observable events of one HttpServeEngine request handling: context pool
lifecycle, hook runs, the embedded dispatcher effects, the response writer,
the end-of-route log and the panic-recovery log (which carries the request
id). -/
inductive Ev where
  | acquire
  | logRouteStart
  | hookRun (i : Nat)
  | route (r : RouteEv)
  | writerRun
  | endcall
  | ctxRelease
  | poolPut
  | panicLogged (requestId : String)
  deriving Repr, DecidableEq

/-- Engine-side inputs of HandleEndpointRequest: the request id, the request's
cancellation state, the configured context hooks (hookCount many, hookPanicAt
marking one that panics), whether a filter or the transporter panics inside
the route call (routePanicEvs being the dispatcher effects already emitted
when it does), whether the response writer panics, the writer's result, and
the dispatcher configuration the engine routes with. -/
structure ReqConfig where
  requestId : String
  ctxDone : Bool
  cancelCause : String
  hookCount : Nat
  hookPanicAt : Option Nat
  routePanics : Bool
  routePanicEvs : List RouteEv
  writerPanics : Bool
  writerResult : Option ServeError
  globalFilters : List Filter
  selectors : List FilterSelector
  transporters : List String

/-- Context built by acquireContext/Reattach for this request and endpoint. -/
def mkCtx (cfg : ReqConfig) (endpoint : Endpoint) : Ctx :=
  { ctxDone := cfg.ctxDone, cancelCause := cfg.cancelCause,
    rpcProto := endpoint.service.rpcProto,
    serviceInterface := endpoint.service.serviceInterface,
    serviceMethod := endpoint.service.serviceMethod }

/-- Index of the context hook that panics, if any does. -/
def hookPanicIndex (cfg : ReqConfig) : Option Nat :=
  match cfg.hookPanicAt with
  | some i => if i < cfg.hookCount then some i else none
  | none => none

/-- HttpServeEngine.HandleEndpointRequest (server.go 291-328). The body runs:
panic-recovery deferred first, acquireContext, releaseContext deferred, the
route-start log, the context hooks, the router's Route call, then either the
error return (endcall deferred) or the response writer (endcall deferred).
Deferred calls run in LIFO order on every exit, normal or panicking; the
recovery block logs the panic with the request id and, the function having no
named result, the function then returns the zero value nil. -/
def HandleEndpointRequest (cfg : ReqConfig) (endpoint : Endpoint) : Option ServeError × List Ev :=
  let pre := [Ev.acquire, Ev.logRouteStart]
  match hookPanicIndex cfg with
  | some i =>
    (none, pre ++ (List.range i).map Ev.hookRun
      ++ [Ev.ctxRelease, Ev.poolPut, Ev.panicLogged cfg.requestId])
  | none =>
    let hookEvs := (List.range cfg.hookCount).map Ev.hookRun
    if cfg.routePanics then
      (none, pre ++ hookEvs ++ cfg.routePanicEvs.map Ev.route
        ++ [Ev.ctxRelease, Ev.poolPut, Ev.panicLogged cfg.requestId])
    else
      let r := Dispatcher.Route cfg.globalFilters cfg.selectors cfg.transporters (mkCtx cfg endpoint)
      let routeEvs := r.2.map Ev.route
      match r.1 with
      | some err =>
        (some err, pre ++ hookEvs ++ routeEvs ++ [Ev.endcall, Ev.ctxRelease, Ev.poolPut])
      | none =>
        if cfg.writerPanics then
          (none, pre ++ hookEvs ++ routeEvs
            ++ [Ev.writerRun, Ev.endcall, Ev.ctxRelease, Ev.poolPut, Ev.panicLogged cfg.requestId])
        else
          (cfg.writerResult, pre ++ hookEvs ++ routeEvs
            ++ [Ev.writerRun, Ev.endcall, Ev.ctxRelease, Ev.poolPut])

/-- HttpServeEngine.HandleMultiEndpointRequest (server.go 274-289): resolve the
requested version in the MVE; on a hit delegate to HandleEndpointRequest, on a
miss optionally log and return flux.ErrRouteNotFound without doing anything
else. -/
def HandleMultiEndpointRequest (cfg : ReqConfig) (version : String)
    (endpoints : MultiEndpoint) (_tracing : Bool) : Option ServeError × List Ev :=
  match endpoints.FindByVersion version with
  | some endpoint => HandleEndpointRequest cfg endpoint
  | none => (some ErrRouteNotFound, [])

/-- Context-pool lifecycle events of a request trace. -/
def Ev.isLifecycle : Ev → Bool
  | Ev.acquire => true
  | Ev.ctxRelease => true
  | Ev.poolPut => true
  | _ => false

/-- Endpoint access / error counter increments of a request trace. -/
def Ev.isCounterInc : Ev → Bool
  | Ev.route (RouteEv.accessInc _ _ _) => true
  | Ev.route (RouteEv.errorInc _ _ _ _) => true
  | _ => false

theorem filter_lifecycle_map_route (l : List RouteEv) :
    (l.map Ev.route).filter Ev.isLifecycle = [] := by
  induction l with
  | nil => rfl
  | cons a l ih => simp [Ev.isLifecycle, ih]

theorem filter_lifecycle_map_hook (l : List Nat) :
    (l.map Ev.hookRun).filter Ev.isLifecycle = [] := by
  induction l with
  | nil => rfl
  | cons a l ih => simp [Ev.isLifecycle, ih]

/-- C8: on every execution of HandleEndpointRequest — including the paths where
a context hook, a filter, the transporter or the response writer panics — the
one acquireContext call is followed by exactly one releaseContext, and the
release clears the context (Release) before returning it to the pool (Put):
the context-lifecycle subtrace is exactly [acquire, ctxRelease, poolPut]. -/
theorem handle_endpoint_request_ctx_lifecycle (cfg : ReqConfig) (endpoint : Endpoint) :
    (HandleEndpointRequest cfg endpoint).2.filter Ev.isLifecycle
      = [Ev.acquire, Ev.ctxRelease, Ev.poolPut] := by
  unfold HandleEndpointRequest
  cases hookPanicIndex cfg with
  | some i =>
    simp [List.filter_append, filter_lifecycle_map_hook, Ev.isLifecycle]
  | none =>
    by_cases hr : cfg.routePanics
    · simp [hr, List.filter_append, filter_lifecycle_map_hook, filter_lifecycle_map_route,
        Ev.isLifecycle]
    · simp only [hr, if_false, Bool.false_eq_true]
      cases (Dispatcher.Route cfg.globalFilters cfg.selectors cfg.transporters
          (mkCtx cfg endpoint)).1 with
      | some err =>
        simp [List.filter_append, filter_lifecycle_map_hook, filter_lifecycle_map_route,
          Ev.isLifecycle]
      | none =>
        by_cases hw : cfg.writerPanics
        · simp [hw, List.filter_append, filter_lifecycle_map_hook, filter_lifecycle_map_route,
            Ev.isLifecycle]
        · simp [hw, List.filter_append, filter_lifecycle_map_hook, filter_lifecycle_map_route,
            Ev.isLifecycle]

/-- Whether a panic is actually raised while handling the request: a context
hook panics, the route call panics, or the route call succeeds and the
response writer panics. -/
def panicsDuring (cfg : ReqConfig) (endpoint : Endpoint) : Bool :=
  match hookPanicIndex cfg with
  | some _ => true
  | none =>
    cfg.routePanics
      || (match (Dispatcher.Route cfg.globalFilters cfg.selectors cfg.transporters
            (mkCtx cfg endpoint)).1 with
          | some _ => false
          | none => cfg.writerPanics)

/-- Demonstration request configuration whose route call panics. -/
def cfgPanicDemo : ReqConfig :=
  { requestId := "req-1", ctxDone := false, cancelCause := "", hookCount := 0,
    hookPanicAt := none, routePanics := true, routePanicEvs := [],
    writerPanics := false, writerResult := none, globalFilters := [],
    selectors := [], transporters := [] }

/-- Demonstration endpoint. -/
def epDemo : Endpoint :=
  { version := "A", httpMethod := "GET", httpPattern := "/v1/x", managed := false,
    service := { serviceId := "s1", aliasId := "", rpcProto := "http",
                 serviceInterface := "i", serviceMethod := "m" } }

/-- Counterexample to C4: a request whose route call panics is caught and its
stack is logged with the request id, but HandleEndpointRequest returns nil —
no internal-error ServeError (nor any ServeError) is produced as the handler's
result, because the recovery block of server.go 292-302 only logs and the
function has no named result to assign. -/
theorem handle_endpoint_request_panic_counterexample :
    (HandleEndpointRequest cfgPanicDemo epDemo).1 = none
    ∧ Ev.panicLogged "req-1" ∈ (HandleEndpointRequest cfgPanicDemo epDemo).2
    ∧ panicsDuring cfgPanicDemo epDemo = true := by
  refine ⟨rfl, ?_, rfl⟩
  simp [HandleEndpointRequest, cfgPanicDemo, hookPanicIndex]

/-- C4 amended: every panic raised while handling a request is caught at the
outermost per-request boundary and the stack is logged together with the
request id, but the handler's result is nil — no internal-error ServeError is
produced. -/
theorem handle_endpoint_request_panic_caught (cfg : ReqConfig) (endpoint : Endpoint)
    (h : panicsDuring cfg endpoint = true) :
    (HandleEndpointRequest cfg endpoint).1 = none
    ∧ Ev.panicLogged cfg.requestId ∈ (HandleEndpointRequest cfg endpoint).2 := by
  unfold panicsDuring at h
  unfold HandleEndpointRequest
  cases hhp : hookPanicIndex cfg with
  | some i => exact ⟨by simp [hhp], by simp [hhp]⟩
  | none =>
    simp only [hhp] at h
    cases hr : cfg.routePanics with
    | true => exact ⟨by simp [hhp, hr], by simp [hhp, hr]⟩
    | false =>
      simp only [hr, Bool.false_or] at h
      cases hroute : (Dispatcher.Route cfg.globalFilters cfg.selectors cfg.transporters
          (mkCtx cfg endpoint)).1 with
      | some err => simp [hroute] at h
      | none =>
        simp only [hroute] at h
        exact ⟨by simp [hhp, hr, hroute, h], by simp [hhp, hr, hroute, h]⟩

/-- Witness for the amended C4: the demonstration panicking request returns nil
and logs the panic under its request id. -/
theorem handle_endpoint_request_panic_caught_witness :
    (HandleEndpointRequest cfgPanicDemo epDemo).1 = none
    ∧ Ev.panicLogged "req-1" ∈ (HandleEndpointRequest cfgPanicDemo epDemo).2 :=
  handle_endpoint_request_panic_caught cfgPanicDemo epDemo rfl

/-- Demonstration request configuration for a version miss. -/
def cfgVersionMissDemo : ReqConfig :=
  { requestId := "req-2", ctxDone := false, cancelCause := "", hookCount := 0,
    hookPanicAt := none, routePanics := false, routePanicEvs := [],
    writerPanics := false, writerResult := none, globalFilters := [],
    selectors := [], transporters := ["http"] }

/-- Counterexample to C3: a request for version Z against a registered route
whose MVE holds no matching endpoint returns 404 REQUEST_NOT_FOUND, but the
endpoint access counter and endpoint error counter are NOT incremented — the
trace is empty, because HandleMultiEndpointRequest returns ErrRouteNotFound
before Dispatcher.Route (the only place the counters live, dispatcher.go
99-109) is ever reached. -/
theorem version_miss_counterexample :
    HandleMultiEndpointRequest cfgVersionMissDemo "Z" ⟨[]⟩ true = (some ErrRouteNotFound, [])
    ∧ ErrRouteNotFound.statusCode = 404
    ∧ ErrRouteNotFound.errorCode = "REQUEST_NOT_FOUND"
    ∧ (HandleMultiEndpointRequest cfgVersionMissDemo "Z" ⟨[]⟩ true).2.countP Ev.isCounterInc = 0
    ∧ MultiEndpoint.FindByVersion ⟨[]⟩ "Z" = none := by
  exact ⟨rfl, rfl, rfl, rfl, rfl⟩

/-- C3 amended: for every request that matches a registered route but whose
requested version has no matching endpoint in the MVE, the gateway responds
404 REQUEST_NOT_FOUND (flux.ErrRouteNotFound) and increments neither the
endpoint access counter nor the endpoint error counter: those counters are
only touched inside Dispatcher.Route, which is not reached on a version
miss. -/
theorem version_miss_no_metrics (cfg : ReqConfig) (version : String)
    (m : MultiEndpoint) (tracing : Bool)
    (h : m.FindByVersion version = none) :
    HandleMultiEndpointRequest cfg version m tracing = (some ErrRouteNotFound, [])
    ∧ (HandleMultiEndpointRequest cfg version m tracing).2.countP Ev.isCounterInc = 0 := by
  have he : HandleMultiEndpointRequest cfg version m tracing = (some ErrRouteNotFound, []) := by
    simp [HandleMultiEndpointRequest, h]
  exact ⟨he, by simp [he]⟩

/-- Witness for the amended C3: the concrete version-miss request yields the
route-not-found error with not a single counter increment. -/
theorem version_miss_no_metrics_witness :
    HandleMultiEndpointRequest cfgVersionMissDemo "Z" ⟨[]⟩ true = (some ErrRouteNotFound, [])
    ∧ (HandleMultiEndpointRequest cfgVersionMissDemo "Z" ⟨[]⟩ true).2.countP Ev.isCounterInc = 0 :=
  version_miss_no_metrics cfgVersionMissDemo "Z" ⟨[]⟩ true rfl

/-- ASCII upper-casing of one character, embedding the effect of Go's
strings.ToUpper on the ASCII method strings this code compares. -/
def upperChar (c : Char) : Char :=
  if 97 ≤ c.toNat ∧ c.toNat ≤ 122 then Char.ofNat (c.toNat - 32) else c

/-- strings.ToUpper as used on HTTP method names. -/
def upperString (s : String) : String :=
  String.mk (s.data.map upperChar)

/-- isAllowedHttpMethod (server.go 549-560): the HTTP method whitelist. -/
def isAllowedHttpMethod (method : String) : Bool :=
  method == "GET" || method == "POST" || method == "DELETE" || method == "PUT"
    || method == "HEAD" || method == "OPTIONS" || method == "PATCH" || method == "TRACE"

/-- Event type of a discovery event (flux.EventTypeAdded / Updated / Removed). -/
inductive EventType where
  | added
  | updated
  | removed
  deriving Repr, DecidableEq

/-- flux.HttpEndpointEvent. -/
structure HttpEndpointEvent where
  eventType : EventType
  endpoint : Endpoint
  deriving Repr, DecidableEq

/-- Engine-side route state: the route-key → MVE table behind
SelectMultiEndpoint / RegisterMultiEndpoint, the (method, pattern) handlers
registered on the public web server, and those registered on the admin web
server. -/
structure EngineState where
  mveTable : List (String × MultiEndpoint)
  httpHandlers : List (String × String)
  manageHandlers : List (String × String)
  deriving Repr, DecidableEq

/-- registerManageEndpoint (server.go 379-391): Added and Updated bind a
handler on the admin web server; Removed is a TODO no-op. -/
def registerManageEndpoint (s : EngineState) (method pattern : String)
    (event : EventType) : EngineState :=
  match event with
  | .added => { s with manageHandlers := s.manageHandlers ++ [(method, pattern)] }
  | .updated => { s with manageHandlers := s.manageHandlers ++ [(method, pattern)] }
  | .removed => s

/-- registerServeEndpoint (server.go 394-412) combined with selectMultiEndpoint
(server.go 482-488): fetch the MVE for the route key, creating and registering
an empty one on first sight (RegisterMultiEndpoint is modelled from the spec:
"Register(routeKey, endpoint) returns the existing MVE or creates one";
firstTime also binds the public web handler, but only in the Added branch);
then Update on Added/Updated, Delete on Removed. -/
def registerServeEndpoint (s : EngineState) (routeKey method pattern : String)
    (event : EventType) (endpoint : Endpoint) : EngineState :=
  let found := lookupKey s.mveTable routeKey
  let mve := match found with
    | some m => m
    | none => ({ versions := [] } : MultiEndpoint)
  let toRegister := found.isNone
  match event with
  | .added =>
    let s1 := { s with mveTable := storeKey s.mveTable routeKey (mve.Update endpoint.version endpoint) }
    if toRegister then { s1 with httpHandlers := s1.httpHandlers ++ [(method, pattern)] } else s1
  | .updated =>
    { s with mveTable := storeKey s.mveTable routeKey (mve.Update endpoint.version endpoint) }
  | .removed =>
    { s with mveTable := storeKey s.mveTable routeKey (mve.Delete endpoint.version) }

/-- HttpServeEngine.HandleHttpEndpointEvent (server.go 358-376): upper-case the
method, drop the event (log only) when the method is not whitelisted, then
register either a managed endpoint on the admin server or a serve endpoint
under the route key METHOD#PATTERN. -/
def HandleHttpEndpointEvent (s : EngineState) (event : HttpEndpointEvent) : EngineState :=
  let method := upperString event.endpoint.httpMethod
  if isAllowedHttpMethod method then
    let pattern := event.endpoint.httpPattern
    if event.endpoint.managed then
      registerManageEndpoint s method pattern event.eventType
    else
      registerServeEndpoint s (method ++ "#" ++ pattern) method pattern event.eventType event.endpoint
  else s

/-- C6: an endpoint event whose method fails the whitelist check (the check the
code performs on the upper-cased HttpMethod, so CONNECT in any casing fails
while get passes as GET) is logged and dropped with the route table left
completely unchanged: no MVE is created or modified and no web handler is
registered — the engine state is identical. -/
theorem endpoint_event_bad_method_dropped (s : EngineState) (event : HttpEndpointEvent)
    (h : isAllowedHttpMethod (upperString event.endpoint.httpMethod) = false) :
    HandleHttpEndpointEvent s event = s := by
  simp [HandleHttpEndpointEvent, h]

/-- Witness for C6: a CONNECT Added event against the empty engine state leaves
it untouched. -/
theorem endpoint_event_bad_method_dropped_witness :
    isAllowedHttpMethod (upperString "CONNECT") = false
    ∧ HandleHttpEndpointEvent ⟨[], [], []⟩
        ⟨EventType.added, { epDemo with httpMethod := "CONNECT" }⟩ = ⟨[], [], []⟩ :=
  ⟨by decide, endpoint_event_bad_method_dropped ⟨[], [], []⟩
    ⟨EventType.added, { epDemo with httpMethod := "CONNECT" }⟩ (by decide)⟩

/-- Shape of the engine route state: the route keys with their version sets,
and the two handler tables — everything C10 calls "route key, MVE, and web
handler", with the endpoint payloads themselves abstracted away. -/
def EngineState.shape (s : EngineState) :
    List (String × List String) × List (String × String) × List (String × String) :=
  (s.mveTable.map (fun p => (p.1, p.2.versions.map Prod.fst)), s.httpHandlers, s.manageHandlers)

theorem removeKey_map_fst {α : Type} (l : List (String × α)) (k : String)
    (f : α → List String) :
    (removeKey l k).map (fun p => (p.1, f p.2))
      = removeKey (l.map (fun p => (p.1, f p.2))) k := by
  induction l with
  | nil => rfl
  | cons p rest ih =>
    by_cases h : p.1 = k
    · simp [removeKey, h, ih]
    · simp [removeKey, h, ih]

/-- Helper: registering two endpoints that differ only outside their version
field produces engine states of identical shape. -/
theorem registerServeEndpoint_shape (s : EngineState) (routeKey method pattern : String)
    (event : EventType) (ep1 ep2 : Endpoint) (hv : ep1.version = ep2.version) :
    (registerServeEndpoint s routeKey method pattern event ep1).shape
      = (registerServeEndpoint s routeKey method pattern event ep2).shape := by
  cases event with
  | added =>
    cases hf : lookupKey s.mveTable routeKey with
    | some m =>
      simp [registerServeEndpoint, hf, EngineState.shape, MultiEndpoint.Update, storeKey, hv]
    | none =>
      simp [registerServeEndpoint, hf, EngineState.shape, MultiEndpoint.Update, storeKey, hv]
  | updated =>
    cases hf : lookupKey s.mveTable routeKey with
    | some m =>
      simp [registerServeEndpoint, hf, EngineState.shape, MultiEndpoint.Update, storeKey, hv]
    | none =>
      simp [registerServeEndpoint, hf, EngineState.shape, MultiEndpoint.Update, storeKey, hv]
  | removed =>
    cases hf : lookupKey s.mveTable routeKey with
    | some m =>
      simp [registerServeEndpoint, hf, EngineState.shape, MultiEndpoint.Delete, storeKey, hv]
    | none =>
      simp [registerServeEndpoint, hf, EngineState.shape, MultiEndpoint.Delete, storeKey, hv]

/-- C10: endpoint-event handling is case-insensitive in HttpMethod — the method
is upper-cased before the whitelist check and before building the route key
METHOD#PATTERN, so two events identical up to the casing of their method are
registered under the same route key, the same MVE and the same web handler
(engine states of identical shape); in particular method get is accepted,
upper-cased to GET, and handled exactly like method GET. -/
theorem endpoint_event_method_case_insensitive :
    (∀ (s : EngineState) (etype : EventType) (ep : Endpoint) (m1 m2 : String),
      upperString m1 = upperString m2 →
      (HandleHttpEndpointEvent s ⟨etype, { ep with httpMethod := m1 }⟩).shape
        = (HandleHttpEndpointEvent s ⟨etype, { ep with httpMethod := m2 }⟩).shape)
    ∧ isAllowedHttpMethod (upperString "get") = true
    ∧ upperString "get" = "GET" := by
  refine ⟨?_, by decide, by decide⟩
  intro s etype ep m1 m2 h
  simp only [HandleHttpEndpointEvent, h]
  by_cases hA : isAllowedHttpMethod (upperString m2) = true
  · simp only [hA, if_true]
    by_cases hm : ep.managed
    · simp [hm]
    · have hm' : ep.managed = false := by simpa using hm
      simp only [hm', Bool.false_eq_true, if_false]
      exact registerServeEndpoint_shape s (upperString m2 ++ "#" ++ ep.httpPattern)
        (upperString m2) ep.httpPattern etype
        { ep with httpMethod := m1, managed := false }
        { ep with httpMethod := m2, managed := false } rfl
  · simp at hA
    simp [hA]

/-- Witness for C10: against the empty engine state, a get Added event and a
GET Added event for the same pattern and version produce states of identical
shape. -/
theorem endpoint_event_method_case_insensitive_witness :
    (HandleHttpEndpointEvent ⟨[], [], []⟩
        ⟨EventType.added, { epDemo with httpMethod := "get" }⟩).shape
      = (HandleHttpEndpointEvent ⟨[], [], []⟩
        ⟨EventType.added, { epDemo with httpMethod := "GET" }⟩).shape :=
  endpoint_event_method_case_insensitive.1 ⟨[], [], []⟩ EventType.added epDemo "get" "GET"
    (by decide)

/-- Process-wide backend service directory keyed by service id.
Modelled from the spec: the ext package store is not under the sources; the
spec describes "a process-wide service directory keyed by ServiceId (with
optional AliasId aliases)". -/
abbrev ServiceDir := List (String × Service)

/-- ext.StoreBackendServiceById — store the service under the given id.
Modelled from the spec (map insert-or-replace). -/
def StoreBackendServiceById (dir : ServiceDir) (id : String) (service : Service) : ServiceDir :=
  storeKey dir id service

/-- ext.StoreBackendService — store the service under its ServiceId.
Modelled from the spec. -/
def StoreBackendService (dir : ServiceDir) (service : Service) : ServiceDir :=
  StoreBackendServiceById dir service.serviceId service

/-- ext.RemoveBackendService — delete the directory entry under the given id.
Modelled from the spec (map delete). -/
def RemoveBackendService (dir : ServiceDir) (id : String) : ServiceDir :=
  removeKey dir id

/-- flux.BackendServiceEvent. -/
structure BackendServiceEvent where
  eventType : EventType
  service : Service
  deriving Repr, DecidableEq

/-- HttpServeEngine.HandleBackendServiceEvent (server.go 330-356): Added and
Updated store under ServiceId and, when the AliasId is non-empty, also under
the AliasId; Removed deletes the ServiceId entry and, when the AliasId is
non-empty, the AliasId entry as well. -/
def HandleBackendServiceEvent (dir : ServiceDir) (event : BackendServiceEvent) : ServiceDir :=
  let service := event.service
  match event.eventType with
  | .added =>
    let d := StoreBackendService dir service
    if service.aliasId != "" then StoreBackendServiceById d service.aliasId service else d
  | .updated =>
    let d := StoreBackendService dir service
    if service.aliasId != "" then StoreBackendServiceById d service.aliasId service else d
  | .removed =>
    let d := RemoveBackendService dir service.serviceId
    if service.aliasId != "" then RemoveBackendService d service.aliasId else d

/-- C7: after a backend-service Removed event the directory entry under the
service's ServiceId is gone, and when the service carries a non-empty AliasId
the entry under that AliasId is gone as well — neither key resolves to any
service. -/
theorem backend_service_removed_symmetric (dir : ServiceDir) (service : Service) :
    lookupKey (HandleBackendServiceEvent dir ⟨EventType.removed, service⟩) service.serviceId = none
    ∧ (service.aliasId ≠ "" →
        lookupKey (HandleBackendServiceEvent dir ⟨EventType.removed, service⟩) service.aliasId = none) := by
  constructor
  · by_cases h : service.aliasId = ""
    · simp [HandleBackendServiceEvent, RemoveBackendService, h, lookupKey_removeKey_self]
    · simp only [HandleBackendServiceEvent, RemoveBackendService]
      rw [if_pos (by simpa using h)]
      exact lookupKey_removeKey_of_none _ _ _ (lookupKey_removeKey_self dir service.serviceId)
  · intro h
    simp only [HandleBackendServiceEvent, RemoveBackendService]
    rw [if_pos (by simpa using h)]
    exact lookupKey_removeKey_self _ service.aliasId

/-- Demonstration service with an alias. -/
def svcDemo : Service :=
  { serviceId := "svc-a", aliasId := "alias-a", rpcProto := "dubbo",
    serviceInterface := "com.foo.Bar", serviceMethod := "call" }

/-- Witness for C7: removing the demonstration service from a directory holding
it under both its ServiceId and its AliasId empties both keys. -/
theorem backend_service_removed_symmetric_witness :
    lookupKey (HandleBackendServiceEvent [("svc-a", svcDemo), ("alias-a", svcDemo)]
        ⟨EventType.removed, svcDemo⟩) "svc-a" = none
    ∧ lookupKey (HandleBackendServiceEvent [("svc-a", svcDemo), ("alias-a", svcDemo)]
        ⟨EventType.removed, svcDemo⟩) "alias-a" = none :=
  ⟨(backend_service_removed_symmetric [("svc-a", svcDemo), ("alias-a", svcDemo)] svcDemo).1,
   (backend_service_removed_symmetric [("svc-a", svcDemo), ("alias-a", svcDemo)] svcDemo).2
     (by decide)⟩

/-- Configuration value as held by a flux.Configuration (viper-backed). -/
inductive CVal where
  | str (s : String)
  | int (n : Nat)
  | boolean (b : Bool)
  deriving Repr, DecidableEq

/-- flux.Configuration: explicit values overlaid on defaults
(Configuration.SetDefaults). -/
structure Configuration where
  entries : List (String × CVal)
  defaults : List (String × CVal)
  deriving Repr, DecidableEq

/-- Configuration value lookup: explicit entry first, then the default. -/
def Configuration.find (c : Configuration) (k : String) : Option CVal :=
  match lookupKey c.entries k with
  | some v => some v
  | none => lookupKey c.defaults k

/-- Configuration.GetString: a missing or non-string value casts to "". -/
def Configuration.getString (c : Configuration) (k : String) : String :=
  match c.find k with
  | some (CVal.str s) => s
  | _ => ""

/-- Configuration.GetInt: a missing or non-int value casts to 0. -/
def Configuration.getInt (c : Configuration) (k : String) : Nat :=
  match c.find k with
  | some (CVal.int n) => n
  | _ => 0

/-- Engine defaults installed by NewHttpServeEngineOverride (server.go
140-145): feature-debug-enable false, feature-debug-port 9527, address
0.0.0.0, port 8080. -/
def engineDefaults : List (String × CVal) :=
  [("feature-debug-enable", CVal.boolean false),
   ("feature-debug-port", CVal.int 9527),
   ("address", CVal.str "0.0.0.0"),
   ("port", CVal.int 8080)]

/-- The HttpWebServer configuration as the engine sees it when the user sets no
keys: only the defaults. -/
def engineDefaultConfig : Configuration := ⟨[], engineDefaults⟩

/-- Public web server bind address computed by StartServe (server.go 266-271):
the source passes the address key together with the manage-port key to the
public server's startServer call. -/
def publicServerBind (config : Configuration) : String × Nat :=
  (config.getString "address", config.getInt "manage-port")

/-- Admin web server bind address computed by StartServe (server.go 262-265):
manage-address and manage-port. -/
def manageServerBind (config : Configuration) : String × Nat :=
  (config.getString "manage-address", config.getInt "manage-port")

/-- C5 (code bug): under the default configuration the port key holds 8080,
yet the public HTTP web server is bound to the manage-port value (0 when
unset) because StartServe passes GetInt of the manage-port key where the port
key is expected; with manage-port set to 9527 the public server binds 9527,
never the configured port 8080. The spec itself flags this line as a likely
bug. -/
theorem startServe_public_bind_uses_manage_port :
    publicServerBind engineDefaultConfig = ("0.0.0.0", 0)
    ∧ engineDefaultConfig.getInt "port" = 8080
    ∧ publicServerBind engineDefaultConfig
        ≠ (engineDefaultConfig.getString "address", engineDefaultConfig.getInt "port")
    ∧ publicServerBind ⟨[("manage-port", CVal.int 9527)], engineDefaults⟩ = ("0.0.0.0", 9527)
    ∧ manageServerBind ⟨[("manage-port", CVal.int 9527)], engineDefaults⟩ = ("", 9527) := by
  refine ⟨rfl, rfl, ?_, rfl, rfl⟩
  decide

/-- One entry of the dynfilter configuration block, as the loading code reads
it: GetString of the id key, GetString of the type key, and the IsDisabled
check on the entry's configuration. -/
structure DynConfig where
  id : String
  typeName : String
  disabled : Bool
  deriving Repr, DecidableEq

/-- The AwareConfig record built per accepted entry (dynamic filter loading in
the server package). -/
structure AwareConfig where
  id : String
  typeId : String
  config : DynConfig
  deriving Repr, DecidableEq

/-- A filter instance as produced by a registered factory. -/
structure FilterInstance where
  typeId : String
  deriving Repr, DecidableEq

/-- dynamicFilters: iterate the dynfilter entries in order; an entry with an
empty id is logged and skipped, a disabled entry is logged and skipped, an
entry whose type has no registered factory aborts with an error, and an
accepted entry contributes an AwareConfig. The registry is the set of type
names with a registered factory (ext.FactoryByType). -/
def dynamicFilters (registry : List String) : List DynConfig → Except String (List AwareConfig)
  | [] => Except.ok []
  | config :: rest =>
    if config.id = "" then dynamicFilters registry rest
    else if config.disabled then dynamicFilters registry rest
    else if registry.contains config.typeName then
      match dynamicFilters registry rest with
      | Except.ok out => Except.ok (⟨config.id, config.typeName, config⟩ :: out)
      | Except.error e => Except.error e
    else
      Except.error ("FilterFactory not found, filter-type: " ++ config.typeName
        ++ ", filter-id: " ++ config.id)

/-- Dynamic-filter portion of Dispatcher.Init (dispatcher.go 47-66): load the
dynamic filters, failing initialization when loading fails; for each loaded
item the factory is invoked, producing the filter instances. -/
def dispatcherInitDynamicFilters (registry : List String) (configs : List DynConfig) :
    Except String (List FilterInstance) :=
  match dynamicFilters registry configs with
  | Except.error e => Except.error e
  | Except.ok items => Except.ok (items.map (fun item => ⟨item.typeId⟩))

/-- Helper: an entry that is not disabled, has an id, and whose type has no
registered factory makes dynamicFilters fail, wherever it sits in the list. -/
theorem dynamicFilters_error_of_bad_entry (registry : List String)
    (configs : List DynConfig) (e : DynConfig)
    (hmem : e ∈ configs) (hid : e.id ≠ "") (hdis : e.disabled = false)
    (hfac : registry.contains e.typeName = false) :
    ∃ msg, dynamicFilters registry configs = Except.error msg := by
  induction configs with
  | nil => cases hmem
  | cons c rest ih =>
    rcases List.mem_cons.mp hmem with hc | hc
    · subst hc
      have hfac' : e.typeName ∉ registry := by simpa using hfac
      refine ⟨"FilterFactory not found, filter-type: " ++ e.typeName ++ ", filter-id: " ++ e.id, ?_⟩
      simp [dynamicFilters, hid, hdis, hfac']
    · rcases ih hc with ⟨msg, hmsg⟩
      by_cases h1 : c.id = ""
      · exact ⟨msg, by simp [dynamicFilters, h1, hmsg]⟩
      · by_cases h2 : c.disabled
        · exact ⟨msg, by simp [dynamicFilters, h1, h2, hmsg]⟩
        · by_cases h3 : c.typeName ∈ registry
          · exact ⟨msg, by simp [dynamicFilters, h1, h2, h3, hmsg]⟩
          · exact ⟨"FilterFactory not found, filter-type: " ++ c.typeName ++ ", filter-id: " ++ c.id,
              by simp [dynamicFilters, h1, h2, h3]⟩

/-- C9: dynfilter entries — (i) an entry with an empty id is ignored without
error: loading proceeds exactly as without it; (ii) a disabled entry is
skipped and no filter instance is ever created from it: both the loaded
AwareConfig list and the instances Dispatcher.Init creates are exactly those
of the remaining entries; (iii) a non-disabled entry with an id whose type has
no registered factory makes dynamic-filter loading, and with it dispatcher
initialization, fail with an error. -/
theorem dynfilter_entry_handling :
    (∀ (registry : List String) (e : DynConfig) (rest : List DynConfig), e.id = "" →
      dynamicFilters registry (e :: rest) = dynamicFilters registry rest)
    ∧ (∀ (registry : List String) (e : DynConfig) (rest : List DynConfig),
        e.disabled = true →
        dynamicFilters registry (e :: rest) = dynamicFilters registry rest
        ∧ dispatcherInitDynamicFilters registry (e :: rest)
            = dispatcherInitDynamicFilters registry rest)
    ∧ (∀ (registry : List String) (configs : List DynConfig) (e : DynConfig),
        e ∈ configs → e.id ≠ "" → e.disabled = false →
        registry.contains e.typeName = false →
        ∃ msg, dynamicFilters registry configs = Except.error msg
          ∧ dispatcherInitDynamicFilters registry configs = Except.error msg) := by
  refine ⟨?_, ?_, ?_⟩
  · intro registry e rest hid
    simp [dynamicFilters, hid]
  · intro registry e rest hdis
    constructor
    · by_cases hid : e.id = ""
      · simp [dynamicFilters, hid]
      · simp [dynamicFilters, hid, hdis]
    · by_cases hid : e.id = ""
      · simp [dispatcherInitDynamicFilters, dynamicFilters, hid]
      · simp [dispatcherInitDynamicFilters, dynamicFilters, hid, hdis]
  · intro registry configs e hmem hid hdis hfac
    rcases dynamicFilters_error_of_bad_entry registry configs e hmem hid hdis hfac with ⟨msg, hmsg⟩
    exact ⟨msg, hmsg, by simp [dispatcherInitDynamicFilters, hmsg]⟩

/-- Witness for C9: a concrete dynfilter block with an id-less entry, a
disabled entry of unknown type, and a bad entry of unknown type — the first
two are skipped, the third makes loading and initialization fail. -/
theorem dynfilter_entry_handling_witness :
    dynamicFilters ["t-known"] [⟨"", "t-known", false⟩]
      = dynamicFilters ["t-known"] []
    ∧ dispatcherInitDynamicFilters ["t-known"] [⟨"f1", "t-unknown", true⟩]
        = dispatcherInitDynamicFilters ["t-known"] []
    ∧ ∃ msg, dynamicFilters ["t-known"] [⟨"f1", "t-unknown", true⟩, ⟨"f2", "t-unknown", false⟩]
          = Except.error msg
        ∧ dispatcherInitDynamicFilters ["t-known"]
            [⟨"f1", "t-unknown", true⟩, ⟨"f2", "t-unknown", false⟩] = Except.error msg :=
  ⟨dynfilter_entry_handling.1 ["t-known"] ⟨"", "t-known", false⟩ [] rfl,
   (dynfilter_entry_handling.2.1 ["t-known"] ⟨"f1", "t-unknown", true⟩ [] rfl).2,
   dynfilter_entry_handling.2.2 ["t-known"]
     [⟨"f1", "t-unknown", true⟩, ⟨"f2", "t-unknown", false⟩] ⟨"f2", "t-unknown", false⟩
     (by decide) (by decide) rfl (by decide)⟩

end Flux
